import Mathlib

/-!
# Verification of the batch-processing module of `py_pdf_master`

Shallow embedding of `src/batch/processor.py` (class `BatchProcessor`) and of
the pieces of the core parser, converter and editor modules (`src/core/`)
that the batch module calls.

Modelling conventions:
* The external PDF/converter libraries are oracles: whether a file can be
  opened, whether a converter returns `True`/`False` or raises, timestamps and
  the thread pool's completion order are parameters of the model.
* A Python function that can raise is embedded as `Except`; a batch method
  that can let an exception escape returns `Except Unit _` (`.error ()` means
  the exception propagates to the caller).
* Timestamps are naturals supplied by a parameter; a Python dict that may lack
  the `end_time`/`duration` keys is a record with `Option` fields.
-/

namespace PyPdfMaster

/-- `os.path.basename` for POSIX paths: the part after the last `/`. -/
def basename (p : String) : String :=
  ⟨(p.data.reverse.takeWhile (fun c => c ≠ '/')).reverse⟩

/-- The stem part of `os.path.splitext` on a slash-free name: everything
before the last dot, except that a name whose part before that dot is empty
or all dots (e.g. `.bashrc`) has no extension. -/
def splitextBase (s : String) : String :=
  let cs := s.data
  let ext := cs.reverse.takeWhile (fun c => c ≠ '.')
  if ext.length = cs.length then s
  else
    let stem := cs.take (cs.length - ext.length - 1)
    if stem.all (fun c => c = '.') then s else ⟨stem⟩

/-- `os.path.join a b` for the cases exercised here: `b` absolute wins;
otherwise a single separator is placed between the parts. -/
def pathJoin (a b : String) : String :=
  if b.data.head? = some '/' then b
  else if a = "" then b
  else if a.data.getLast? = some '/' then a ++ b
  else a ++ "/" ++ b

/-- Embedding of the result dict built by `BatchProcessor._process_single_file`.
`end_time` and `duration` are `Option` because the dict only receives those
keys after the `try` block; the early `return` on open failure skips them. -/
structure PerFileResult where
  file_path : String
  success : Bool
  message : String
  output_file : Option String
  start_time : Nat
  end_time : Option Nat
  duration : Option Int
  deriving Repr, DecidableEq

/-- Embedding of the summary dict returned by the per-file batch methods
(`batch_convert`, `batch_split`, ...). -/
structure BatchSummary where
  total_files : Nat
  success_count : Nat
  failed_count : Nat
  total_duration : Nat
  results : List PerFileResult
  deriving Repr, DecidableEq

/-- Outcome of one call into a converter wrapper (`pdf_to_word`,
`pdf_to_text`, ...) as observed by `convert_operation`: the wrapper returns
`True`, returns a falsy value, or raises with message `m`. -/
inductive ConvOutcome where
  | retTrue : ConvOutcome
  | retFalse : ConvOutcome
  | raises : String → ConvOutcome
  deriving Repr, DecidableEq

/-- The formats `convert_operation` dispatches on; any other format leaves
`success = False` and hence raises `转换失败`. -/
def isSupportedFormat (fmt : String) : Bool :=
  fmt = "docx" || fmt = "xlsx" || fmt = "pptx" || fmt = "png" || fmt = "jpeg"
    || fmt = "tiff" || fmt = "txt" || fmt = "html"

/-- The output path `convert_operation` builds for an input file. -/
def convertOutputPath (output_dir file_path output_format : String) : String :=
  pathJoin output_dir (splitextBase (basename file_path) ++ "." ++ output_format)

/-- Embedding of the local `convert_operation` in `batch_convert`:
raise propagates, a falsy return becomes an exception `转换失败`, otherwise the
output path is returned. -/
def convert_operation (file_path output_format output_dir : String)
    (conv : ConvOutcome) : Except String String :=
  let output_path := convertOutputPath output_dir file_path output_format
  if isSupportedFormat output_format then
    match conv with
    | .raises m => .error m
    | .retFalse => .error "转换失败"
    | .retTrue => .ok output_path
  else .error "转换失败"

/-- Embedding of `BatchProcessor._process_single_file`: open failure returns
early (leaving `end_time`/`duration` unset), an exception from the operation
is caught into a failed result, otherwise the result is marked successful. -/
def processSingleFile (file_path : String) (openOk : Bool)
    (op : Except String String) (t0 t1 : Nat) : PerFileResult :=
  if openOk = false then
    { file_path := file_path, success := false, message := "无法打开文件",
      output_file := none, start_time := t0, end_time := none, duration := none }
  else
    match op with
    | .ok out =>
      { file_path := file_path, success := true, message := "处理成功",
        output_file := some out, start_time := t0, end_time := some t1,
        duration := some ((t1 : Int) - (t0 : Int)) }
    | .error msg =>
      { file_path := file_path, success := false, message := msg,
        output_file := none, start_time := t0, end_time := some t1,
        duration := some ((t1 : Int) - (t0 : Int)) }

/-- Environment of one per-file batch run: the library/OS oracles
(per task index `j`: can the file be opened, what the converter does, the two
timestamps), the wall-clock total, and the progress callback (installed or
not, and on which invocation index it raises). -/
structure RunEnv where
  openOk : Nat → Bool
  conv : Nat → ConvOutcome
  times : Nat → Nat × Nat
  totalDuration : Nat
  cbInstalled : Bool
  cbRaisesAt : Nat → Bool

/-- The result `_process_single_file` produces for task index `j` of a
`batch_convert` run. -/
def convertResultOf (input_files : List String) (output_format output_dir : String)
    (env : RunEnv) (j : Nat) : PerFileResult :=
  processSingleFile (input_files.getD j "") (env.openOk j)
    (convert_operation (input_files.getD j "") output_format output_dir (env.conv j))
    ((env.times j).1) ((env.times j).2)

/-- Embedding of the `as_completed` loop shared by the per-file batch methods:
`order` is the completion order (a permutation of the task indices), `i` the
loop counter; each iteration appends the completed result and, when a callback
is installed, delivers the fraction `(i+1)/total_files` — propagating the
callback's exception if it raises on that invocation. -/
def completionLoop (resultOf : Nat → PerFileResult) (total_files : Nat)
    (cbInstalled : Bool) (cbRaisesAt : Nat → Bool) :
    List Nat → Nat → List PerFileResult → List ℚ →
    Except Unit (List PerFileResult × List ℚ)
  | [], _, accR, accF => .ok (accR.reverse, accF.reverse)
  | j :: rest, i, accR, accF =>
    let r := resultOf j
    if cbInstalled then
      if cbRaisesAt i then .error ()
      else completionLoop resultOf total_files cbInstalled cbRaisesAt rest (i + 1)
        (r :: accR) ((((i : ℚ) + 1) / (total_files : ℚ)) :: accF)
    else completionLoop resultOf total_files cbInstalled cbRaisesAt rest (i + 1)
      (r :: accR) accF

/-- Embedding of `BatchProcessor.batch_convert`. Returns the summary dict paired
with the list of progress fractions delivered to the callback; `.error ()`
models an exception (necessarily from the progress callback) escaping to the
caller. -/
def batch_convert (input_files : List String) (output_format output_dir : String)
    (env : RunEnv) (order : List Nat) : Except Unit (BatchSummary × List ℚ) :=
  let total_files := input_files.length
  match completionLoop (convertResultOf input_files output_format output_dir env)
      total_files env.cbInstalled env.cbRaisesAt order 0 [] [] with
  | .error _ => .error ()
  | .ok (results, fracs) =>
    let success_count := (results.filter (fun r => r.success)).length
    .ok ({ total_files := total_files, success_count := success_count,
           failed_count := total_files - success_count,
           total_duration := env.totalDuration, results := results }, fracs)

/-- Summary dict returned by `BatchProcessor.batch_merge`: a single aggregate
outcome — one success flag, one message, one optional output artifact — with
no per-file result list. -/
structure MergeSummary where
  total_files : Nat
  success : Bool
  output_file : Option String
  total_duration : Nat
  message : String
  deriving Repr, DecidableEq

/-- Embedding of `PDFEditor.merge_pdfs`: each input that opens contributes its
pages (per-file open failures are swallowed inside the loop); the merged
document is saved iff it has at least one page, and a failing save is caught
into `False`. Never raises. -/
def merge_pdfs (pdf_files : List String) (openable : String → Bool)
    (pageCount : String → Nat) (saveOk : Bool) : Bool :=
  let pages := ((pdf_files.filter (fun f => openable f)).map pageCount).sum
  if pages > 0 then saveOk else false

/-- Embedding of `BatchProcessor.batch_merge`. `merge_pdfs` itself never
raises, so the `except` branch is reachable only through the progress callback
raising inside the `try`; in that case the handler calls the callback again
and, if that second invocation also raises, the exception escapes
(`.error ()`); if only the first raises, the handler's failure dict (message =
the exception text) is returned. -/
def batch_merge (input_files : List String) (output_path : String)
    (openable : String → Bool) (pageCount : String → Nat) (saveOk : Bool)
    (totalDuration : Nat) (cbInstalled cbRaises1 cbRaises2 : Bool)
    (cbExnText : String) : Except Unit MergeSummary :=
  let success := merge_pdfs input_files openable pageCount saveOk
  if cbInstalled && cbRaises1 then
    if cbInstalled && cbRaises2 then .error ()
    else .ok { total_files := input_files.length, success := false,
               output_file := none, total_duration := totalDuration,
               message := cbExnText }
  else
    .ok { total_files := input_files.length, success := success,
          output_file := if success then some output_path else none,
          total_duration := totalDuration,
          message := if success then "合并成功" else "合并失败" }

/-- Embedding of `PDFConverter.pdf_to_text` together with its file-system
effect. The file system is the list of existing paths. `PDFParser.extract_text`
never raises (it catches and returns `""`), so after a successful document
check the failure points are the OS-level `open` of the output file
(`openFileOk`; failing before the file exists) and the write (`writeOk`;
failing after `open` has already created the file). Returns the boolean result
and the updated file system. -/
def pdf_to_text (docOpen : Bool) (openFileOk writeOk : Bool)
    (output_path : String) (fs : List String) : Bool × List String :=
  if docOpen = false then (false, fs)
  else if openFileOk = false then (false, fs)
  else if writeOk then (true, output_path :: fs)
  else (false, output_path :: fs)

/-- One `batch_convert` worker task for `output_format = "txt"`, refined down
into `pdf_to_text` so that the file-system effect is visible: open the
document, run `pdf_to_text` on the computed output path (a falsy return makes
`convert_operation` raise `转换失败`), and build the `PerFileResult`. Returns
the result together with the final file system. -/
def textConvertTask (file_path output_dir : String) (openOk : Bool)
    (openFileOk writeOk : Bool) (t0 t1 : Nat) (fs : List String) :
    PerFileResult × List String :=
  if openOk = false then
    (processSingleFile file_path false (.error "") t0 t1, fs)
  else
    let output_path := convertOutputPath output_dir file_path "txt"
    let res := pdf_to_text true openFileOk writeOk output_path fs
    let op : Except String String :=
      if res.1 then .ok output_path else .error "转换失败"
    (processSingleFile file_path true op t0 t1, res.2)

/-- A `PDFParser` instance (`src/core/pdfParser.py`): `id` is the Python
object identity, `document`/`file_path` the handle state mutated by
`open_pdf`/`close`. -/
structure ParserHandle where
  id : Nat
  document : Option String
  file_path : Option String
  deriving Repr, DecidableEq

/-- Embedding of `PDFParser.open_pdf`: on success the shared fields `document`
and `file_path` are overwritten with the newly opened file; on failure the
state is unchanged and `False` is returned. -/
def open_pdf (p : ParserHandle) (file : String) (openable : Bool) :
    ParserHandle × Bool :=
  if openable then
    ({ p with document := some file, file_path := some file }, true)
  else (p, false)

/-- The object graph built by `BatchProcessor.__init__`: one `PDFParser`
instance stored in `pdfParser`, whose identity is also handed to the editor,
converter, security and OCR components via `set_parser`. -/
structure BatchProcessorState where
  max_workers : Nat
  pdfParser : ParserHandle
  editorParserId : Nat
  converterParserId : Nat
  securityParserId : Nat
  ocrParserId : Nat
  deriving Repr, DecidableEq

/-- Embedding of `BatchProcessor.__init__` with `PDFParser()` allotted object
identity `0`: every component is wired to that single parser instance. -/
def BatchProcessor.init (max_workers : Nat) : BatchProcessorState :=
  let parser : ParserHandle := { id := 0, document := none, file_path := none }
  { max_workers := max_workers, pdfParser := parser,
    editorParserId := parser.id, converterParserId := parser.id,
    securityParserId := parser.id, ocrParserId := parser.id }

/-- The parser instance a worker task dereferences:
`_process_single_file` always reads `self.pdfParser`, so the identity it uses
does not depend on the task index. -/
def parserUsedByTask (p : BatchProcessorState) (taskIndex : Nat) : Nat :=
  p.pdfParser.id

/-- The progress fractions `(i+1)/N, (i+2)/N, ...` delivered by `len`
consecutive loop iterations starting at loop counter `i`, with `N` total
files. -/
def fracsFrom (N i len : Nat) : List ℚ :=
  (List.range len).map (fun k : Nat => ((i : ℚ) + (k : ℚ) + 1) / (N : ℚ))

/-- Concrete run environment: every file opens, every conversion returns
`True`, no callback installed. -/
def envTrivial : RunEnv :=
  { openOk := fun _ => true, conv := fun _ => .retTrue,
    times := fun _ => (0, 1), totalDuration := 0,
    cbInstalled := false, cbRaisesAt := fun _ => false }

/-- Concrete run environment: file index 0 cannot be opened, all other files
open and convert successfully; a non-raising progress callback is installed. -/
def envMixed : RunEnv :=
  { openOk := fun j => decide (j ≠ 0), conv := fun _ => .retTrue,
    times := fun _ => (0, 1), totalDuration := 5,
    cbInstalled := true, cbRaisesAt := fun _ => false }

/-- Concrete run environment whose installed progress callback raises on every
invocation. -/
def envCbRaises : RunEnv :=
  { openOk := fun _ => true, conv := fun _ => .retTrue,
    times := fun _ => (0, 1), totalDuration := 0,
    cbInstalled := true, cbRaisesAt := fun _ => true }

/-! ## General lemmas about the batch loop -/

theorem fracsFrom_succ (N i len : Nat) :
    fracsFrom N i (len + 1) =
      (((i : ℚ) + 1) / (N : ℚ)) :: fracsFrom N (i + 1) len := by
  unfold fracsFrom
  rw [List.range_succ_eq_map, List.map_cons, List.map_map]
  refine congrArg₂ _ (by norm_num) ?_
  refine List.map_congr_left fun k _ => ?_
  simp only [Function.comp_apply]
  push_cast
  ring

/-- Reading a list back through `getD` over its index range reproduces it. -/
theorem map_getD_range (l : List String) :
    (List.range l.length).map (fun j => l.getD j "") = l := by
  induction l with
  | nil => rfl
  | cons a t ih =>
    rw [List.length_cons, List.range_succ_eq_map, List.map_cons, List.map_map]
    refine congrArg₂ _ rfl ?_
    calc (List.range t.length).map ((fun j => (a :: t).getD j "") ∘ (· + 1))
        = (List.range t.length).map (fun j => t.getD j "") :=
          List.map_congr_left fun k _ => rfl
      _ = t := ih

/-- A worker task's result always carries the input path it was given. -/
theorem convertResultOf_file_path (input_files : List String)
    (fmt dir : String) (env : RunEnv) (j : Nat) :
    (convertResultOf input_files fmt dir env j).file_path =
      input_files.getD j "" := by
  unfold convertResultOf processSingleFile
  split
  · rfl
  · split <;> rfl

/-- Closed form of the `as_completed` loop when the progress callback never
raises: all results are collected in completion order and the delivered
fractions are `(i+1)/N, ...` when a callback is installed. -/
theorem completionLoop_eq (resultOf : Nat → PerFileResult) (N : Nat)
    (cbI : Bool) (cbR : Nat → Bool) (hcb : ∀ m, cbR m = false)
    (order : List Nat) :
    ∀ (i : Nat) (accR : List PerFileResult) (accF : List ℚ),
      completionLoop resultOf N cbI cbR order i accR accF =
        .ok (accR.reverse ++ order.map resultOf,
             accF.reverse ++ (if cbI then fracsFrom N i order.length else [])) := by
  induction order with
  | nil =>
    intro i accR accF
    simp [completionLoop, fracsFrom]
  | cons j rest ih =>
    intro i accR accF
    cases cbI with
    | false =>
      have hstep : completionLoop resultOf N false cbR (j :: rest) i accR accF =
          completionLoop resultOf N false cbR rest (i + 1) (resultOf j :: accR) accF := rfl
      rw [hstep, ih (i + 1) (resultOf j :: accR) accF]
      simp [List.append_assoc]
    | true =>
      have hstep : completionLoop resultOf N true cbR (j :: rest) i accR accF =
          if cbR i = true then Except.error () else
            completionLoop resultOf N true cbR rest (i + 1) (resultOf j :: accR)
              ((((i : ℚ) + 1) / (N : ℚ)) :: accF) := rfl
      rw [hstep, hcb i, if_neg (by simp),
        ih (i + 1) (resultOf j :: accR) ((((i : ℚ) + 1) / (N : ℚ)) :: accF)]
      rw [List.length_cons, fracsFrom_succ]
      simp [List.append_assoc]

/-- Closed form of `batch_convert` when the progress callback never raises. -/
theorem batch_convert_eq (input_files : List String) (fmt dir : String)
    (env : RunEnv) (order : List Nat) (hcb : ∀ m, env.cbRaisesAt m = false) :
    batch_convert input_files fmt dir env order =
      .ok ({ total_files := input_files.length,
             success_count :=
               ((order.map (convertResultOf input_files fmt dir env)).filter
                 (fun r => r.success)).length,
             failed_count := input_files.length -
               ((order.map (convertResultOf input_files fmt dir env)).filter
                 (fun r => r.success)).length,
             total_duration := env.totalDuration,
             results := order.map (convertResultOf input_files fmt dir env) },
           if env.cbInstalled then
             fracsFrom input_files.length 0 order.length
           else []) := by
  have h := completionLoop_eq (convertResultOf input_files fmt dir env)
    input_files.length env.cbInstalled env.cbRaisesAt hcb order 0 [] []
  simp only [batch_convert]
  rw [h]
  simp

/-! ## Claim theorems -/

/-- **C1.** Failure isolation: in a `batch_convert` run whose progress
callback never raises, the method returns a finalized summary (no exception
escapes); an input whose document cannot be opened, or whose operation raises
or returns `False`, gets a failed `PerFileResult` (success flag `false`,
message set to the failure text) for that input only; every task still
contributes its result to the summary, and inputs whose operation succeeds are
marked successful. -/
theorem batch_convert_failure_isolation
    (input_files : List String) (fmt dir : String) (env : RunEnv)
    (order : List Nat)
    (horder : order.Perm (List.range input_files.length))
    (hcb : ∀ i, env.cbRaisesAt i = false) :
    ∃ s fr, batch_convert input_files fmt dir env order = .ok (s, fr) ∧
      s.results.length = input_files.length ∧
      (∀ j, j < input_files.length →
        convertResultOf input_files fmt dir env j ∈ s.results) ∧
      (∀ j, env.openOk j = false →
        (convertResultOf input_files fmt dir env j).success = false ∧
        (convertResultOf input_files fmt dir env j).message = "无法打开文件") ∧
      (∀ j m, env.openOk j = true →
        convert_operation (input_files.getD j "") fmt dir (env.conv j) =
          .error m →
        (convertResultOf input_files fmt dir env j).success = false ∧
        (convertResultOf input_files fmt dir env j).message = m) ∧
      (∀ j, env.conv j = .retFalse →
        convert_operation (input_files.getD j "") fmt dir (env.conv j) =
          .error "转换失败") ∧
      (∀ j out, env.openOk j = true →
        convert_operation (input_files.getD j "") fmt dir (env.conv j) =
          .ok out →
        (convertResultOf input_files fmt dir env j).success = true) := by
  refine ⟨_, _, batch_convert_eq input_files fmt dir env order hcb,
    ?_, ?_, ?_, ?_, ?_, ?_⟩
  · show (order.map (convertResultOf input_files fmt dir env)).length =
      input_files.length
    rw [List.length_map, horder.length_eq, List.length_range]
  · intro j hj
    show convertResultOf input_files fmt dir env j ∈
      order.map (convertResultOf input_files fmt dir env)
    exact List.mem_map_of_mem _ (horder.mem_iff.mpr (List.mem_range.mpr hj))
  · intro j h
    refine ⟨?_, ?_⟩ <;>
      · unfold convertResultOf processSingleFile
        rw [if_pos h]
  · intro j m h hop
    refine ⟨?_, ?_⟩ <;>
      · unfold convertResultOf processSingleFile
        rw [if_neg (by simp [h]), hop]
  · intro j hconv
    unfold convert_operation
    rw [hconv]
    split <;> rfl
  · intro j out h hop
    unfold convertResultOf processSingleFile
    rw [if_neg (by simp [h]), hop]

/-- Witness for C1 at a concrete run: two inputs, the first of which cannot
be opened, completing in reverse order. -/
theorem batch_convert_failure_isolation_witness :
    ([1, 0] : List Nat).Perm (List.range ["a.pdf", "b.pdf"].length) ∧
    (∀ i, envMixed.cbRaisesAt i = false) ∧
    (∃ s fr, batch_convert ["a.pdf", "b.pdf"] "txt" "out" envMixed [1, 0] =
        .ok (s, fr) ∧
      s.results.length = ["a.pdf", "b.pdf"].length ∧
      (∀ j, j < ["a.pdf", "b.pdf"].length →
        convertResultOf ["a.pdf", "b.pdf"] "txt" "out" envMixed j ∈ s.results) ∧
      (∀ j, envMixed.openOk j = false →
        (convertResultOf ["a.pdf", "b.pdf"] "txt" "out" envMixed j).success = false ∧
        (convertResultOf ["a.pdf", "b.pdf"] "txt" "out" envMixed j).message =
          "无法打开文件") ∧
      (∀ j m, envMixed.openOk j = true →
        convert_operation (["a.pdf", "b.pdf"].getD j "") "txt" "out"
          (envMixed.conv j) = .error m →
        (convertResultOf ["a.pdf", "b.pdf"] "txt" "out" envMixed j).success = false ∧
        (convertResultOf ["a.pdf", "b.pdf"] "txt" "out" envMixed j).message = m) ∧
      (∀ j, envMixed.conv j = .retFalse →
        convert_operation (["a.pdf", "b.pdf"].getD j "") "txt" "out"
          (envMixed.conv j) = .error "转换失败") ∧
      (∀ j out, envMixed.openOk j = true →
        convert_operation (["a.pdf", "b.pdf"].getD j "") "txt" "out"
          (envMixed.conv j) = .ok out →
        (convertResultOf ["a.pdf", "b.pdf"] "txt" "out" envMixed j).success =
          true)) :=
  ⟨by decide, fun _ => rfl,
    batch_convert_failure_isolation ["a.pdf", "b.pdf"] "txt" "out" envMixed
      [1, 0] (by decide) (fun _ => rfl)⟩

/-- **C2.** Counting invariant of a finalized per-file batch summary over a
non-empty input list: `success_count + failed_count = total_files` and
`total_files` is the number of input files. -/
theorem batch_convert_counts_invariant
    (input_files : List String) (fmt dir : String) (env : RunEnv)
    (order : List Nat)
    (horder : order.Perm (List.range input_files.length))
    (hcb : ∀ i, env.cbRaisesAt i = false)
    (hne : input_files ≠ []) :
    ∃ s fr, batch_convert input_files fmt dir env order = .ok (s, fr) ∧
      s.success_count + s.failed_count = s.total_files ∧
      s.total_files = input_files.length := by
  refine ⟨_, _, batch_convert_eq input_files fmt dir env order hcb, ?_, rfl⟩
  have hle : ((order.map (convertResultOf input_files fmt dir env)).filter
      (fun r => r.success)).length ≤ input_files.length := by
    calc ((order.map (convertResultOf input_files fmt dir env)).filter
        (fun r => r.success)).length
        ≤ (order.map (convertResultOf input_files fmt dir env)).length :=
          List.length_filter_le _ _
      _ = order.length := List.length_map _ _
      _ = (List.range input_files.length).length := horder.length_eq
      _ = input_files.length := List.length_range _
  exact Nat.add_sub_cancel' hle

/-- Witness for C2 at a concrete run: two inputs, one of which fails. -/
theorem batch_convert_counts_invariant_witness :
    ([0, 1] : List Nat).Perm (List.range ["a.pdf", "b.pdf"].length) ∧
    (["a.pdf", "b.pdf"] : List String) ≠ [] ∧
    (∃ s fr, batch_convert ["a.pdf", "b.pdf"] "txt" "out" envMixed [0, 1] =
        .ok (s, fr) ∧
      s.success_count + s.failed_count = s.total_files ∧
      s.total_files = ["a.pdf", "b.pdf"].length) :=
  ⟨by decide, by decide,
    batch_convert_counts_invariant ["a.pdf", "b.pdf"] "txt" "out" envMixed
      [0, 1] (by decide) (fun _ => rfl) (by decide)⟩

/-- **C3.** Input preservation: the multiset of `file_path` fields in the
results of a `batch_convert` run equals the multiset of the request's input
files (no input dropped, none duplicated, even with repeated paths), and each
input yields exactly one result. -/
theorem batch_convert_results_multiset
    (input_files : List String) (fmt dir : String) (env : RunEnv)
    (order : List Nat)
    (horder : order.Perm (List.range input_files.length))
    (hcb : ∀ i, env.cbRaisesAt i = false) :
    ∃ s fr, batch_convert input_files fmt dir env order = .ok (s, fr) ∧
      List.Perm (s.results.map (fun r => r.file_path)) input_files ∧
      s.results.length = input_files.length := by
  refine ⟨_, _, batch_convert_eq input_files fmt dir env order hcb, ?_, ?_⟩
  · show List.Perm ((order.map (convertResultOf input_files fmt dir env)).map
      (fun r => r.file_path)) input_files
    have h1 : (order.map (convertResultOf input_files fmt dir env)).map
        (fun r => r.file_path) = order.map (fun j => input_files.getD j "") := by
      rw [List.map_map]
      exact List.map_congr_left fun j _ => convertResultOf_file_path _ _ _ _ _
    rw [h1]
    have h2 := horder.map (fun j => input_files.getD j "")
    rwa [map_getD_range] at h2
  · show (order.map (convertResultOf input_files fmt dir env)).length =
      input_files.length
    rw [List.length_map, horder.length_eq, List.length_range]

/-- Witness for C3 at a concrete run with a repeated input path. -/
theorem batch_convert_results_multiset_witness :
    ([2, 0, 1] : List Nat).Perm
      (List.range ["a.pdf", "b.pdf", "a.pdf"].length) ∧
    (∃ s fr, batch_convert ["a.pdf", "b.pdf", "a.pdf"] "txt" "out" envMixed
        [2, 0, 1] = .ok (s, fr) ∧
      List.Perm (s.results.map (fun r => r.file_path))
        ["a.pdf", "b.pdf", "a.pdf"] ∧
      s.results.length = ["a.pdf", "b.pdf", "a.pdf"].length) :=
  ⟨by decide,
    batch_convert_results_multiset ["a.pdf", "b.pdf", "a.pdf"] "txt" "out"
      envMixed [2, 0, 1] (by decide) (fun _ => rfl)⟩

theorem fracsFrom_zero_eq (N : Nat) :
    fracsFrom N 0 N =
      (List.range N).map (fun i : Nat => ((i : ℚ) + 1) / (N : ℚ)) := by
  unfold fracsFrom
  refine List.map_congr_left fun k _ => ?_
  norm_num

theorem progress_fracs_sorted (N : Nat) :
    List.Sorted (· ≤ ·)
      ((List.range N).map (fun i : Nat => ((i : ℚ) + 1) / (N : ℚ))) := by
  rcases Nat.eq_zero_or_pos N with h0 | hN
  · subst h0; simp
  refine List.pairwise_map.mpr ?_
  refine (List.pairwise_lt_range N).imp ?_
  intro a b hab
  have hN0 : (0 : ℚ) < (N : ℚ) := by exact_mod_cast hN
  exact (div_le_div_iff_of_pos_right hN0).mpr
    (add_le_add_right (by exact_mod_cast hab.le) 1)

theorem progress_fracs_count_one (N : Nat) (hN : 0 < N) :
    ((List.range N).map
      (fun i : Nat => ((i : ℚ) + 1) / (N : ℚ))).count 1 = 1 := by
  obtain ⟨n, rfl⟩ : ∃ n, N = n + 1 :=
    ⟨N - 1, (Nat.succ_pred_eq_of_pos hN).symm⟩
  have hne : ((n + 1 : Nat) : ℚ) ≠ 0 := by exact_mod_cast Nat.succ_ne_zero n
  rw [List.range_succ, List.map_append, List.count_append]
  have h0 : ((List.range n).map
      (fun i : Nat => ((i : ℚ) + 1) / ((n + 1 : Nat) : ℚ))).count 1 = 0 := by
    refine List.count_eq_zero.mpr ?_
    intro hmem
    obtain ⟨k, hk, hfk⟩ := List.mem_map.mp hmem
    have hkn : k < n := List.mem_range.mp hk
    rw [div_eq_one_iff_eq hne] at hfk
    have hk1 : k + 1 = n + 1 := by exact_mod_cast hfk
    omega
  rw [h0]
  have hd : ((n : ℚ) + 1) / ((n : ℚ) + 1) = 1 := div_self (by positivity)
  simp [hd]

theorem progress_fracs_getLast (N : Nat) (hN : 0 < N) :
    ((List.range N).map
      (fun i : Nat => ((i : ℚ) + 1) / (N : ℚ))).getLast? = some 1 := by
  obtain ⟨n, rfl⟩ : ∃ n, N = n + 1 :=
    ⟨N - 1, (Nat.succ_pred_eq_of_pos hN).symm⟩
  rw [List.range_succ, List.map_append]
  simp
  exact div_self (by positivity)

/-- **C7.** Progress monotonicity: in a `batch_convert` run over a non-empty
input list with an installed, non-raising callback, the delivered fraction
sequence is `(i+1)/N` for the `i`-th completion, hence non-decreasing, and
the value `1` is delivered exactly once, as the last delivery. -/
theorem batch_convert_progress_monotone
    (input_files : List String) (fmt dir : String) (env : RunEnv)
    (order : List Nat)
    (horder : order.Perm (List.range input_files.length))
    (hcb : ∀ i, env.cbRaisesAt i = false)
    (hN : 0 < input_files.length)
    (hinst : env.cbInstalled = true) :
    ∃ s fr, batch_convert input_files fmt dir env order = .ok (s, fr) ∧
      fr = (List.range input_files.length).map
        (fun i : Nat => ((i : ℚ) + 1) / (input_files.length : ℚ)) ∧
      List.Sorted (· ≤ ·) fr ∧
      fr.count 1 = 1 ∧
      fr.getLast? = some 1 := by
  have hordlen : order.length = input_files.length := by
    rw [horder.length_eq, List.length_range]
  have hfr : (if env.cbInstalled then
      fracsFrom input_files.length 0 order.length else []) =
      (List.range input_files.length).map
        (fun i : Nat => ((i : ℚ) + 1) / (input_files.length : ℚ)) := by
    rw [hinst, if_pos rfl, hordlen, fracsFrom_zero_eq]
  refine ⟨_, _, batch_convert_eq input_files fmt dir env order hcb,
    ?_, ?_, ?_, ?_⟩
  · exact hfr
  · rw [hfr]
    exact progress_fracs_sorted _
  · rw [hfr]
    exact progress_fracs_count_one _ hN
  · rw [hfr]
    exact progress_fracs_getLast _ hN

/-- Witness for C7 at a concrete run with two inputs completing in reverse
order. -/
theorem batch_convert_progress_monotone_witness :
    ([1, 0] : List Nat).Perm (List.range ["a.pdf", "b.pdf"].length) ∧
    0 < ["a.pdf", "b.pdf"].length ∧
    envMixed.cbInstalled = true ∧
    (∃ s fr, batch_convert ["a.pdf", "b.pdf"] "txt" "out" envMixed [1, 0] =
        .ok (s, fr) ∧
      fr = (List.range ["a.pdf", "b.pdf"].length).map
        (fun i : Nat => ((i : ℚ) + 1) / (["a.pdf", "b.pdf"].length : ℚ)) ∧
      List.Sorted (· ≤ ·) fr ∧
      fr.count 1 = 1 ∧
      fr.getLast? = some 1) :=
  ⟨by decide, by decide, rfl,
    batch_convert_progress_monotone ["a.pdf", "b.pdf"] "txt" "out" envMixed
      [1, 0] (by decide) (fun _ => rfl) (by decide) rfl⟩

/-- **C4 (amended).** Worker tasks do not each open their own document handle:
`_process_single_file` always dereferences the processor's single
`self.pdfParser` instance, so the parser used is independent of the task
index, and a second task's `open_pdf` on the shared handle overwrites the
document opened by the first. -/
theorem parserUsedByTask_shared (mw j k : Nat) (f1 f2 : String) :
    parserUsedByTask (BatchProcessor.init mw) j =
      parserUsedByTask (BatchProcessor.init mw) k ∧
    ((open_pdf ((open_pdf (BatchProcessor.init mw).pdfParser f1 true).1) f2
        true).1).document = some f2 :=
  ⟨rfl, rfl⟩

/-- Counterexample to **C4** as stated: tasks 0 and 1 of a freshly constructed
processor use the same `PDFParser` instance (so the document handle *is*
shared state between concurrent tasks), and opening `b.pdf` on that shared
handle clobbers the previously opened `a.pdf`. -/
theorem parserUsedByTask_counterexample :
    parserUsedByTask (BatchProcessor.init 4) 0 =
      parserUsedByTask (BatchProcessor.init 4) 1 ∧
    ((open_pdf ((open_pdf (BatchProcessor.init 4).pdfParser "a.pdf" true).1)
        "b.pdf" true).1).document = some "b.pdf" ∧
    ((open_pdf ((open_pdf (BatchProcessor.init 4).pdfParser "a.pdf" true).1)
        "b.pdf" true).1).document ≠ some "a.pdf" := by
  refine ⟨rfl, rfl, ?_⟩
  decide

/-- **C5 (amended).** An empty input list is not rejected: `batch_convert`
returns an ordinary finalized summary with `total_files = 0`, zero counts and
an empty result list (after creating the output directory), for every
environment — no batch-fatal error is reported or raised. -/
theorem batch_convert_empty_returns_summary (fmt dir : String) (env : RunEnv) :
    batch_convert [] fmt dir env [] =
      .ok ({ total_files := 0, success_count := 0, failed_count := 0,
             total_duration := env.totalDuration, results := [] }, []) := rfl

/-- Counterexample to **C5** as stated: on an empty input list the run does
not report a batch-fatal error — it returns an ordinary summary. -/
theorem batch_convert_empty_counterexample :
    batch_convert [] "txt" "out" envTrivial [] =
      .ok ({ total_files := 0, success_count := 0, failed_count := 0,
             total_duration := 0, results := [] }, []) ∧
    batch_convert [] "txt" "out" envTrivial [] ≠ .error () :=
  ⟨rfl, fun h => Except.noConfusion h⟩

/-- **C6 (amended).** A raising progress callback is *not* swallowed: if the
installed callback raises on the first completed task, the exception
propagates out of `batch_convert` (the batch aborts with no summary). -/
theorem batch_convert_callback_raise_propagates
    (input_files : List String) (fmt dir : String) (env : RunEnv)
    (order : List Nat)
    (hinst : env.cbInstalled = true) (hr : env.cbRaisesAt 0 = true)
    (hord : order ≠ []) :
    batch_convert input_files fmt dir env order = .error () := by
  obtain ⟨j, rest, rfl⟩ := List.exists_cons_of_ne_nil hord
  obtain ⟨oo, cv, tm, td, cbI, cbR⟩ := env
  dsimp only at hinst hr
  subst hinst
  simp [batch_convert, completionLoop, hr]

/-- Witness for the amended C6 at a concrete run. -/
theorem batch_convert_callback_raise_propagates_witness :
    envCbRaises.cbInstalled = true ∧ envCbRaises.cbRaisesAt 0 = true ∧
    ([0] : List Nat) ≠ [] ∧
    batch_convert ["a.pdf"] "txt" "out" envCbRaises [0] = .error () :=
  ⟨rfl, rfl, by decide,
    batch_convert_callback_raise_propagates ["a.pdf"] "txt" "out" envCbRaises
      [0] rfl rfl (by decide)⟩

/-- Counterexample to **C6** as stated: with a callback that raises on its
first invocation, the single-input batch does not continue to a normal
finalized summary — the exception escapes to the caller. -/
theorem batch_convert_callback_raise_counterexample :
    batch_convert ["a.pdf"] "txt" "out" envCbRaises [0] = .error () := rfl

/-- **C8.** `batch_merge` produces exactly one aggregate outcome: provided the
progress callback does not raise (first invocation does not raise), it returns
— never raises — a single summary whose `total_files` is the number of inputs
and which carries one success flag, one message and one optional output
artifact. -/
theorem batch_merge_single_aggregate
    (input_files : List String) (output_path : String)
    (openable : String → Bool) (pageCount : String → Nat) (saveOk : Bool)
    (totalDuration : Nat) (cbInstalled cbRaises2 : Bool) (cbExnText : String) :
    ∃ s, batch_merge input_files output_path openable pageCount saveOk
        totalDuration cbInstalled false cbRaises2 cbExnText = .ok s ∧
      s.total_files = input_files.length ∧
      (s.success = true → s.output_file = some output_path ∧
        s.message = "合并成功") ∧
      (s.success = false → s.output_file = none ∧ s.message = "合并失败") := by
  simp only [batch_merge, Bool.and_false, Bool.false_eq_true, if_false]
  cases hmerge : merge_pdfs input_files openable pageCount saveOk with
  | false =>
    exact ⟨_, rfl, rfl, fun h => absurd h (by simp), fun _ => ⟨rfl, rfl⟩⟩
  | true =>
    exact ⟨_, rfl, rfl, fun _ => ⟨rfl, rfl⟩, fun h => absurd h (by simp)⟩

/-- **C9 (amended).** A successful text-conversion result guarantees its
output artifact exists, and the artifact exists exactly when the document
opened and the OS-level `open` of the output file succeeded — so a failure
*while writing* leaves a (partial) artifact behind alongside a failed result,
and absence of the artifact is not guaranteed on failure. -/
theorem textConvertTask_artifact
    (file_path output_dir : String) (openOk openFileOk writeOk : Bool)
    (t0 t1 : Nat) (fs : List String)
    (hfs : convertOutputPath output_dir file_path "txt" ∉ fs) :
    ((textConvertTask file_path output_dir openOk openFileOk writeOk t0 t1
        fs).1.success = true →
      convertOutputPath output_dir file_path "txt" ∈
        (textConvertTask file_path output_dir openOk openFileOk writeOk t0 t1
          fs).2) ∧
    (convertOutputPath output_dir file_path "txt" ∈
        (textConvertTask file_path output_dir openOk openFileOk writeOk t0 t1
          fs).2 ↔
      openOk = true ∧ openFileOk = true) := by
  cases openOk <;> cases openFileOk <;> cases writeOk <;>
    simp [textConvertTask, pdf_to_text, processSingleFile, hfs]

/-- Witness for the amended C9: a successful conversion on an empty file
system. -/
theorem textConvertTask_artifact_witness :
    convertOutputPath "out" "a.pdf" "txt" ∉ ([] : List String) ∧
    (((textConvertTask "a.pdf" "out" true true true 0 1 []).1.success = true →
      convertOutputPath "out" "a.pdf" "txt" ∈
        (textConvertTask "a.pdf" "out" true true true 0 1 []).2) ∧
     (convertOutputPath "out" "a.pdf" "txt" ∈
        (textConvertTask "a.pdf" "out" true true true 0 1 []).2 ↔
      true = true ∧ true = true)) :=
  ⟨by simp,
    textConvertTask_artifact "a.pdf" "out" true true true 0 1 [] (by simp)⟩

/-- Counterexample to **C9** as stated: document opens, the output file is
created, but the write fails — the result is a failure while the (partial)
output artifact `out/a.txt` exists. -/
theorem textConvertTask_partial_artifact_counterexample :
    convertOutputPath "out" "a.pdf" "txt" = "out/a.txt" ∧
    ((textConvertTask "a.pdf" "out" true true false 0 1 []).1).success =
      false ∧
    "out/a.txt" ∈ (textConvertTask "a.pdf" "out" true true false 0 1 []).2 := by
  refine ⟨by decide, rfl, by decide⟩

/-- **C10 (amended).** A worker task's result always carries the input path
and start timestamp, but `end_time` and `duration` are populated exactly when
the document opened (success or operation failure); the early return on open
failure leaves them unset. -/
theorem processSingleFile_finalization
    (file_path : String) (openOk : Bool) (op : Except String String)
    (t0 t1 : Nat) :
    (processSingleFile file_path openOk op t0 t1).file_path = file_path ∧
    (processSingleFile file_path openOk op t0 t1).start_time = t0 ∧
    (processSingleFile file_path openOk op t0 t1).end_time =
      (if openOk then some t1 else none) ∧
    (processSingleFile file_path openOk op t0 t1).duration =
      (if openOk then some ((t1 : Int) - (t0 : Int)) else none) := by
  cases openOk <;> cases op <;> simp [processSingleFile]

/-- Counterexample to **C10** as stated: when the document cannot be opened,
the returned result dict has no `end_time` and no `duration` key, so it is not
finalized with all of its fields. -/
theorem processSingleFile_open_failure_counterexample :
    (processSingleFile "a.pdf" false (.error "") 0 1).end_time = none ∧
    (processSingleFile "a.pdf" false (.error "") 0 1).duration = none ∧
    (processSingleFile "a.pdf" false (.error "") 0 1).success = false ∧
    (processSingleFile "a.pdf" false (.error "") 0 1).message = "无法打开文件" :=
  ⟨rfl, rfl, rfl, rfl⟩

end PyPdfMaster
